import Mathlib

/-! # Enterprise-Zapp core analyzer: a shallow embedding

This file embeds the pure core of the Enterprise-Zapp repository in Lean 4
and proves properties of it:

* `src/analyzer.py` — per-app signal evaluation, risk scoring, banding,
  recommendation selection, and collection-level sorting;
* `src/ca_analyzer.py` — Conditional Access coverage cross-referencing.

Modelling conventions:

* Timestamps are modelled at whole-day resolution: a parsed datetime is the
  integer number of days since an arbitrary epoch, and the current instant
  `now` is passed explicitly (the Python code reads it from the system
  clock).  `timedelta.days` subtraction therefore becomes integer
  subtraction.
* A raw timestamp string is modelled by `TsStr`: its text plus the result
  that `datetime.fromisoformat` would give for it (`none` = unparseable).
* Python `dict.get` with a default is modelled by `Option.getD`; a missing
  key is `none`.
* Python string operations (`lower`, `startswith`, `in`, `split`,
  lexicographic comparison) are modelled as structurally recursive
  functions over the underlying character lists, so that they evaluate
  inside the kernel.
-/

namespace EnterpriseZapp

/-! ## Python string primitives -/

/-- Model of Python `str.lower()` (per-character lowercasing). -/
def pyLower (s : String) : String := ⟨s.data.map Char.toLower⟩

/-- Model of Python `s.startswith(pre)`. -/
def pyStartsWith (s pre : String) : Bool := pre.data.isPrefixOf s.data

/-- Lexicographic comparison of character lists by code point, the order
Python uses to compare strings. -/
def charListLe : List Char → List Char → Bool
  | [], _ => true
  | _ :: _, [] => false
  | a :: as, b :: bs =>
    if a.toNat < b.toNat then true
    else if b.toNat < a.toNat then false
    else charListLe as bs

/-- Model of Python `s <= t` on strings (code-point lexicographic). -/
def pyStrLe (s t : String) : Bool := charListLe s.data t.data

/-- Helper for the model of Python `str.split()`: accumulates the current
word (reversed) while scanning. -/
def pySplitAux : List Char → List Char → List String
  | [], acc => if acc.isEmpty then [] else [⟨acc.reverse⟩]
  | c :: cs, acc =>
    if c.isWhitespace then
      if acc.isEmpty then pySplitAux cs [] else ⟨acc.reverse⟩ :: pySplitAux cs []
    else pySplitAux cs (c :: acc)

/-- Model of Python `str.split()` with no argument: split on runs of
whitespace, dropping empty tokens. -/
def pySplit (s : String) : List String := pySplitAux s.data []

/-! ## Temporal utilities (`analyzer.py` helpers) -/

/-- Model of a raw ISO-8601 timestamp string as found in the input JSON:
`text` is the literal string (Python truthiness = non-emptiness) and
`parsed` is what `datetime.fromisoformat` returns for it at whole-day
resolution (`none` when parsing fails). -/
structure TsStr where
  text : String := ""
  parsed : Option Int := none
deriving DecidableEq, Repr

/-- Python truthiness of an optional string: `None` and `""` are falsy. -/
def tsTruthy : Option TsStr → Bool
  | none => false
  | some t => !(t.text == "")

/-- The `_parse_dt`: `None`/empty input gives `None`; otherwise the parse
result, with parse failure mapped to `None` (never raises). -/
def _parse_dt : Option TsStr → Option Int
  | none => none
  | some t => if t.text == "" then none else t.parsed

/-- The `_days_since`: days elapsed from `dt` to `now` (`None` propagates). -/
def _days_since (now : Int) (dt : Option Int) : Option Int :=
  dt.map (fun d => now - d)

/-- The `_days_until`: days remaining from `now` to `dt` (`None` propagates). -/
def _days_until (now : Int) (dt : Option Int) : Option Int :=
  dt.map (fun d => d - now)

/-- The `_risk_band`: classify a score into one of the five bands. -/
def _risk_band (score : Int) : String :=
  if score ≥ 75 then "critical"
  else if score ≥ 50 then "high"
  else if score ≥ 25 then "medium"
  else if score > 0 then "low"
  else "clean"

/-! ## Constants (`analyzer.py`) -/

def DEFAULT_STALE_DAYS : Int := 90
def NEAR_EXPIRY_DAYS : Int := 30
def NEAR_EXPIRY_WARN_DAYS : Int := 90

/-- The `MICROSOFT_TENANT_IDS`: the well-known Microsoft tenant ids. -/
def MICROSOFT_TENANT_IDS : List String :=
  [ "f8cdef31-a31e-4b4a-93e4-5f571e91255a"
  , "47df5bb7-e6bc-4256-afb0-dd8c8e3c1ce8"
  , "cdc5aeea-15c5-4db6-b079-fcadd2505dc2"
  , "72f988bf-86f1-41af-91ab-2d7cd011db47" ]

/-- The `HIGH_PRIVILEGE_ROLE_IDS`: application permission ids considered
high-privilege. -/
def HIGH_PRIVILEGE_ROLE_IDS : List String :=
  [ "9e3f62cf-ca93-4989-b6ce-bf83c28f9fe8"
  , "62a82d76-70ea-41e2-9197-370581804d09"
  , "1bfefb4e-e0b5-418b-a88f-73c46d2cc8e9"
  , "9492366f-7969-46a4-8d15-ed1a20078fff"
  , "741f803b-c850-494e-b5df-cde7c675a1ca"
  , "e1fe6dd8-ba31-4d61-89e7-88639da4683d"
  , "df021288-bdef-4463-88db-98f22de89214"
  , "19dbc75e-c2e2-444c-a770-ec69d8559fc7"
  , "06b708a9-e830-4db3-a914-8e69da51d44f"
  , "50483e42-d915-4231-9212-7c7c36c48b57"
  , "c79f8feb-a9db-4090-85f9-90d820caa0eb" ]

/-- The `HIGH_PRIVILEGE_DELEGATED_SCOPES`: delegated scope names considered
high-privilege. -/
def HIGH_PRIVILEGE_DELEGATED_SCOPES : List String :=
  [ "Directory.ReadWrite.All"
  , "User.ReadWrite.All"
  , "Mail.ReadWrite"
  , "Mail.ReadWriteShared"
  , "Files.ReadWrite.All"
  , "Sites.FullControl.All"
  , "RoleManagement.ReadWrite.Directory"
  , "Group.ReadWrite.All"
  , "Application.ReadWrite.All" ]

/-! ## Input data model

The enriched service-principal dicts produced by `collector.py`.  Each
field is optional: `none` models a missing key.  Dict entries whose
contents the analyzer never inspects (owner objects, the user/group
assignment objects of `_appPermissions`) are modelled by `Unit`. -/

/-- An abstract Graph object whose contents the analyzer does not read. -/
abbrev GraphObj := Unit

/-- One password or key credential (only the validity window is read). -/
structure Cred where
  startDateTime : Option TsStr := none
  endDateTime : Option TsStr := none
deriving DecidableEq, Repr

/-- One `oauth2PermissionGrants` entry (only `scope` is read). -/
structure DelegatedGrant where
  scope : Option String := none
deriving DecidableEq, Repr

/-- One `appRoleAssignments` entry (only `appRoleId` is read). -/
structure AppRoleAssignment where
  appRoleId : Option String := none
deriving DecidableEq, Repr

/-- The `_signInActivity` dict.  Each of the three sub-blocks is `some v`
when its key is present, where `v` is the `lastSignInDateTime` entry of the sub-dict (itself optional); `otherKeys` records whether
any further keys make the dict non-empty. -/
structure SignInActivity where
  lastSignInActivity : Option (Option TsStr) := none
  lastDelegatedSignInActivity : Option (Option TsStr) := none
  lastApplicationSignInActivity : Option (Option TsStr) := none
  otherKeys : Bool := false
deriving DecidableEq, Repr

/-- An enriched service-principal record (the `sp` dict).  Field names
follow the JSON keys; the collector enrichment keys lose their leading
underscore (`owners` = `_owners`, `appPermissions` = `_appPermissions`,
`assignments` = `_assignments`, `disabledOwnerIds` = `_disabledOwnerIds`,
`signInActivity` = `_signInActivity`). -/
structure SP where
  id : Option String := none
  appId : Option String := none
  displayName : Option String := none
  accountEnabled : Option Bool := none
  servicePrincipalType : Option String := none
  createdDateTime : Option TsStr := none
  appOwnerOrganizationId : Option String := none
  owners : Option (List GraphObj) := none
  appPermissions : Option (List GraphObj) := none
  delegatedGrants : Option (List DelegatedGrant) := none
  assignments : Option (List AppRoleAssignment) := none
  disabledOwnerIds : Option (List String) := none
  signInActivity : Option SignInActivity := none
  passwordCredentials : Option (List Cred) := none
  keyCredentials : Option (List Cred) := none
  replyUrls : Option (List String) := none
  tags : Option (List String) := none
  oauth2AllowIdTokenIssuance : Option Bool := none
  oauth2AllowImplicitFlow : Option Bool := none
  signInAudience : Option String := none
  description : Option String := none
  notes : Option String := none
deriving DecidableEq, Repr

/-! ## Output data model -/

/-- One triggered rule (`Signal` dataclass). -/
structure Signal where
  key : String
  severity : String
  title : String
  detail : String
  score_contribution : Int
deriving DecidableEq, Repr

/-- The result of evaluating one app (`AppResult` dataclass). -/
structure AppResult where
  sp_id : String
  app_id : String
  display_name : String
  account_enabled : Bool
  sp_type : String
  created_datetime : Option TsStr
  last_sign_in : Option String
  days_since_sign_in : Option Int
  owner_count : Nat
  assignment_count : Nat
  has_expired_secret : Bool
  has_expired_cert : Bool
  has_near_expiry_secret : Bool
  has_near_expiry_cert : Bool
  has_high_privilege : Bool
  signals : List Signal
  risk_score : Int
  risk_band : String
  primary_recommendation : String
  tags : List String
  is_microsoft_first_party : Bool
  is_tool_artifact : Bool
  disabled_owner_count : Nat
  description : Option String
  notes : Option String
  has_expiry_warning_secret : Bool
  has_expiry_warning_cert : Bool
  has_no_reply_urls : Bool
  has_wildcard_redirect : Bool
  has_excessive_delegated : Bool
  has_implicit_grant : Bool
  is_multi_tenant : Bool
  has_mixed_credentials : Bool
  owners : List GraphObj
  password_credentials : List Cred
  key_credentials : List Cred
  delegated_grants : List DelegatedGrant
  app_permissions : List AppRoleAssignment
deriving DecidableEq, Repr

/-! ## Derived values read by `analyze_app` -/

/-- The `display_name = sp.get("displayName", "Unknown")`. -/
def display_nameOf (sp : SP) : String := sp.displayName.getD "Unknown"

/-- The `account_enabled = sp.get("accountEnabled", True)`. -/
def account_enabledOf (sp : SP) : Bool := sp.accountEnabled.getD true

/-- The `sp_type = sp.get("servicePrincipalType", "")`. -/
def sp_typeOf (sp : SP) : String := sp.servicePrincipalType.getD ""

/-- The `sp.get("appOwnerOrganizationId") in MICROSOFT_TENANT_IDS`. -/
def is_microsoft_first_partyOf (sp : SP) : Bool :=
  match sp.appOwnerOrganizationId with
  | some t => MICROSOFT_TENANT_IDS.contains t
  | none => false

/-- The `display_name.startswith("Enterprise-Zapp-Scan-")`. -/
def is_tool_artifactOf (sp : SP) : Bool :=
  pyStartsWith (display_nameOf sp) "Enterprise-Zapp-Scan-"

def ownersOf (sp : SP) : List GraphObj := sp.owners.getD []
def assignmentsTo (sp : SP) : List GraphObj := sp.appPermissions.getD []
def delegated_grantsOf (sp : SP) : List DelegatedGrant := sp.delegatedGrants.getD []
def app_permissionsOf (sp : SP) : List AppRoleAssignment := sp.assignments.getD []
def disabled_owner_idsOf (sp : SP) : List String := sp.disabledOwnerIds.getD []
def password_credsOf (sp : SP) : List Cred := sp.passwordCredentials.getD []
def key_credsOf (sp : SP) : List Cred := sp.keyCredentials.getD []
def reply_urlsOf (sp : SP) : List String := sp.replyUrls.getD []

/-- the `_signInActivity` entry, defaulting to an empty dict. -/
def sign_inOf (sp : SP) : SignInActivity := sp.signInActivity.getD {}

/-- Python truthiness of the `_signInActivity` dict: it is non-empty. -/
def sign_inTruthy (sp : SP) : Bool :=
  let si := sign_inOf sp
  si.lastSignInActivity.isSome || si.lastDelegatedSignInActivity.isSome ||
    si.lastApplicationSignInActivity.isSome || si.otherKeys

/-- Python `x or y` over optional timestamp strings (falsy = `None` or
empty string). -/
def pyOrTs (a b : Option TsStr) : Option TsStr :=
  if tsTruthy a then a else b

/-- The `last_sign_in_raw`: the first truthy of the three nested
`lastSignInDateTime` entries. -/
def last_sign_in_rawOf (sp : SP) : Option TsStr :=
  let si := sign_inOf sp
  pyOrTs (pyOrTs si.lastSignInActivity.join si.lastDelegatedSignInActivity.join)
    si.lastApplicationSignInActivity.join

def last_sign_in_dtOf (sp : SP) : Option Int := _parse_dt (last_sign_in_rawOf sp)

def days_sinceOf (now : Int) (sp : SP) : Option Int :=
  _days_since now (last_sign_in_dtOf sp)

/-- Days until the `endDateTime` of a credential (`none` when missing or
unparseable). -/
def credDaysLeft (now : Int) (c : Cred) : Option Int :=
  _days_until now (_parse_dt c.endDateTime)

/-- The `has_expired_secret`: some password credential has `days_left < 0`. -/
def has_expired_secretOf (sp : SP) (now : Int) : Bool :=
  (password_credsOf sp).any fun c =>
    match credDaysLeft now c with
    | some d => decide (d < 0)
    | none => false

/-- The `has_near_expiry_secret`: some password credential reaches the
`elif days_left <= NEAR_EXPIRY_DAYS` branch. -/
def has_near_expiry_secretOf (sp : SP) (now : Int) : Bool :=
  (password_credsOf sp).any fun c =>
    match credDaysLeft now c with
    | some d => decide (¬d < 0 ∧ d ≤ NEAR_EXPIRY_DAYS)
    | none => false

/-- The `has_expiry_warning_secret`: some password credential reaches the
`elif days_left <= NEAR_EXPIRY_WARN_DAYS` branch. -/
def has_expiry_warning_secretOf (sp : SP) (now : Int) : Bool :=
  (password_credsOf sp).any fun c =>
    match credDaysLeft now c with
    | some d => decide (¬d < 0 ∧ ¬d ≤ NEAR_EXPIRY_DAYS ∧ d ≤ NEAR_EXPIRY_WARN_DAYS)
    | none => false

/-- The `has_expired_cert`: same test over the key credentials. -/
def has_expired_certOf (sp : SP) (now : Int) : Bool :=
  (key_credsOf sp).any fun c =>
    match credDaysLeft now c with
    | some d => decide (d < 0)
    | none => false

def has_near_expiry_certOf (sp : SP) (now : Int) : Bool :=
  (key_credsOf sp).any fun c =>
    match credDaysLeft now c with
    | some d => decide (¬d < 0 ∧ d ≤ NEAR_EXPIRY_DAYS)
    | none => false

def has_expiry_warning_certOf (sp : SP) (now : Int) : Bool :=
  (key_credsOf sp).any fun c =>
    match credDaysLeft now c with
    | some d => decide (¬d < 0 ∧ ¬d ≤ NEAR_EXPIRY_DAYS ∧ d ≤ NEAR_EXPIRY_WARN_DAYS)
    | none => false

/-- The `long_lived`: password credentials whose parsed validity window
exceeds 365 days. -/
def long_livedOf (sp : SP) : List Cred :=
  (password_credsOf sp).filter fun c =>
    match _parse_dt c.endDateTime, _parse_dt c.startDateTime with
    | some e, some s => decide (e - s > 365)
    | _, _ => false

/-- The `has_mixed_credentials = len(password_creds) > 0 and len(key_creds) > 0`. -/
def has_mixed_credentialsOf (sp : SP) : Bool :=
  decide (0 < (password_credsOf sp).length) && decide (0 < (key_credsOf sp).length)

/-- The `has_any_cred = len(password_creds) > 0 or len(key_creds) > 0`. -/
def has_any_credOf (sp : SP) : Bool :=
  decide (0 < (password_credsOf sp).length) || decide (0 < (key_credsOf sp).length)

/-- The `has_no_reply_urls = len(reply_urls) == 0 and has_any_cred`. -/
def has_no_reply_urlsOf (sp : SP) : Bool :=
  decide ((reply_urlsOf sp).length = 0) && has_any_credOf sp

/-- The `has_wildcard_redirect`: a reply URL starts with a localhost scheme
or contains a literal asterisk. -/
def has_wildcard_redirectOf (sp : SP) : Bool :=
  (reply_urlsOf sp).any fun url =>
    pyStartsWith url "http://localhost" || pyStartsWith url "https://localhost" ||
      url.data.contains '*'

/-- The `has_high_privilege`: some app role assignment carries a
high-privilege role id. -/
def has_high_privilegeOf (sp : SP) : Bool :=
  (app_permissionsOf sp).any fun perm =>
    match perm.appRoleId with
    | some r => HIGH_PRIVILEGE_ROLE_IDS.contains r
    | none => false

/-- The `matched_delegated_scopes`: every token of the `scope`
string of every grant that is a high-privilege delegated scope, in scan order. -/
def matched_delegated_scopesOf (sp : SP) : List String :=
  (delegated_grantsOf sp).flatMap fun grant =>
    (pySplit (grant.scope.getD "")).filter fun token =>
      HIGH_PRIVILEGE_DELEGATED_SCOPES.contains token

def has_excessive_delegatedOf (sp : SP) : Bool :=
  decide (0 < (matched_delegated_scopesOf sp).length)

/-- The `has_implicit_grant`: either implicit-flow flag is set. -/
def has_implicit_grantOf (sp : SP) : Bool :=
  sp.oauth2AllowIdTokenIssuance.getD false || sp.oauth2AllowImplicitFlow.getD false

def sign_in_audienceOf (sp : SP) : String := sp.signInAudience.getD ""

/-- The `is_multi_tenant`: the sign-in audience is one of the two
multi-organisation values. -/
def is_multi_tenantOf (sp : SP) : Bool :=
  sign_in_audienceOf sp == "AzureADMultipleOrgs" ||
    sign_in_audienceOf sp == "AzureADandPersonalMicrosoftAccount"

/-! ## Sorting

The Python builtin `sorted` is a stable sort; it is modelled by a stable insertion
sort parameterised by a boolean `le`. -/

/-- Insert `a` after every element strictly before it (stable insert). -/
def insertLe {α : Type} (le : α → α → Bool) (a : α) : List α → List α
  | [] => [a]
  | b :: bs => if le b a && !le a b then b :: insertLe le a bs else a :: b :: bs

/-- Stable insertion sort with respect to `le`. -/
def insertionSort {α : Type} (le : α → α → Bool) : List α → List α
  | [] => []
  | x :: xs => insertLe le x (insertionSort le xs)

/-- Model of Python `sorted` on a list of strings. -/
def pySortStrings (l : List String) : List String := insertionSort pyStrLe l

/-! ## Signal literals

One definition per `Signal(...)` literal appended by `analyze_app`;
interpolated values become parameters. -/

def never_signed_in_sig : Signal where
  key := "never_signed_in"
  severity := "high"
  title := "Never signed in"
  detail := "This app has sign-in activity tracking but has never authenticated."
  score_contribution := 35

def stale_sig (days_since stale_days : Int) (raw : Option TsStr) : Signal where
  key := "stale"
  severity := "high"
  title := "Stale — last sign-in " ++ toString days_since ++ " days ago"
  detail := "No sign-in activity detected in the past " ++ toString stale_days ++
    " days (last seen: " ++ (match raw with | some t => t.text | none => "None") ++ ")."
  score_contribution := 30

def no_owners_sig : Signal where
  key := "no_owners"
  severity := "high"
  title := "No owners defined"
  detail := "This app has no assigned owners. There is no clear accountability for its lifecycle."
  score_contribution := 20

def disabled_owner_sig (disabled_count owner_count : Nat) : Signal where
  key := "disabled_owner"
  severity := "high"
  title := "Owner(s) are disabled accounts (" ++ toString disabled_count ++ " of " ++
    toString owner_count ++ ")"
  detail := "One or more app owners are disabled/deleted users — effectively orphaned."
  score_contribution := 15

def no_assignments_sig : Signal where
  key := "no_assignments"
  severity := "medium"
  title := "No user/group assignments"
  detail := "No users or groups have been assigned to this app."
  score_contribution := 10

def disabled_sp_sig : Signal where
  key := "disabled_sp"
  severity := "medium"
  title := "Service principal is disabled"
  detail := "The service principal is disabled but has not been deleted. Disabled apps can be re-enabled without audit visibility."
  score_contribution := 10

def expired_secret_sig : Signal where
  key := "expired_secret"
  severity := "critical"
  title := "Expired client secret(s)"
  detail := "One or more client secrets have passed their expiry date."
  score_contribution := 25

def expired_cert_sig : Signal where
  key := "expired_cert"
  severity := "critical"
  title := "Expired certificate(s)"
  detail := "One or more certificates have passed their expiry date."
  score_contribution := 25

def near_expiry_secret_sig : Signal where
  key := "near_expiry_secret"
  severity := "high"
  title := "Client secret expiring within " ++ toString NEAR_EXPIRY_DAYS ++ " days"
  detail := "A client secret is nearing expiry — rotate before it causes authentication failures."
  score_contribution := 15

def near_expiry_cert_sig : Signal where
  key := "near_expiry_cert"
  severity := "high"
  title := "Certificate expiring within " ++ toString NEAR_EXPIRY_DAYS ++ " days"
  detail := "A certificate is nearing expiry — rotate before it causes authentication failures."
  score_contribution := 15

def expiry_warning_secret_sig : Signal where
  key := "expiry_warning_secret"
  severity := "medium"
  title := "Client secret expiring within " ++ toString NEAR_EXPIRY_WARN_DAYS ++ " days"
  detail := "A client secret expires in " ++ toString NEAR_EXPIRY_DAYS ++ "–" ++
    toString NEAR_EXPIRY_WARN_DAYS ++ " days. Schedule rotation now to avoid last-minute disruption."
  score_contribution := 8

def expiry_warning_cert_sig : Signal where
  key := "expiry_warning_cert"
  severity := "medium"
  title := "Certificate expiring within " ++ toString NEAR_EXPIRY_WARN_DAYS ++ " days"
  detail := "A certificate expires in " ++ toString NEAR_EXPIRY_DAYS ++ "–" ++
    toString NEAR_EXPIRY_WARN_DAYS ++ " days. Schedule rotation now to avoid last-minute disruption."
  score_contribution := 8

def long_lived_sig (n : Nat) : Signal where
  key := "long_lived_secret"
  severity := "low"
  title := "Long-lived client secret(s) — " ++ toString n ++ " credential(s) valid >1 year"
  detail := "Secrets with lifetimes over one year increase the blast radius of a credential compromise."
  score_contribution := 15

def mixed_credential_sig : Signal where
  key := "mixed_credential_types"
  severity := "low"
  title := "Mixed credential types (secrets and certificates)"
  detail := "This app has both client secrets and certificates configured. Each live credential is an independent attack vector."
  score_contribution := 5

def no_reply_urls_sig : Signal where
  key := "no_reply_urls"
  severity := "medium"
  title := "No redirect URIs configured"
  detail := "This app has credentials but no redirect URIs configured. Verify it is an intentional service/daemon app."
  score_contribution := 10

def wildcard_redirect_sig : Signal where
  key := "wildcard_redirect_uri"
  severity := "high"
  title := "Wildcard or localhost redirect URI detected"
  detail := "One or more redirect URIs use localhost or contain a wildcard character. These patterns enable token theft via open redirect attacks."
  score_contribution := 20

def high_privilege_stale_sig : Signal where
  key := "high_privilege_stale"
  severity := "critical"
  title := "High-privilege permissions on a stale app"
  detail := "This app holds elevated Microsoft Graph permissions (e.g., Directory.ReadWrite.All, User.ReadWrite.All) but shows no recent sign-in activity. This is a significant security risk if the app or its credentials are compromised."
  score_contribution := 25

def excessive_delegated_stale_sig (scope_list : String) : Signal where
  key := "excessive_delegated_permissions"
  severity := "critical"
  title := "High-privilege delegated permissions on a stale app"
  detail := "This app holds high-privilege delegated scopes (" ++ scope_list ++
    ") and shows no recent sign-in activity."
  score_contribution := 25

def excessive_delegated_sig (scope_list : String) : Signal where
  key := "excessive_delegated_permissions"
  severity := "high"
  title := "High-privilege delegated permissions"
  detail := "This app holds high-privilege delegated scopes: " ++ scope_list ++
    ". These grant broad access when users consent."
  score_contribution := 20

def implicit_grant_sig : Signal where
  key := "implicit_grant_enabled"
  severity := "medium"
  title := "Implicit grant flow is enabled"
  detail := "The app registration has implicit ID token or access token issuance enabled. Implicit flow is deprecated and vulnerable to token leakage."
  score_contribution := 10

def multi_tenant_high_sig (audience : String) : Signal where
  key := "multi_tenant_app"
  severity := "high"
  title := "Multi-tenant app with high-privilege permissions"
  detail := "This app accepts logins from external tenants (signInAudience: " ++ audience ++
    ") and holds high-privilege permissions — a significant cross-tenant risk."
  score_contribution := 15

def multi_tenant_medium_sig (audience : String) : Signal where
  key := "multi_tenant_app"
  severity := "medium"
  title := "Multi-tenant app"
  detail := "This app accepts logins from external tenants (signInAudience: " ++ audience ++
    "). Confirm this is intentional."
  score_contribution := 10

def microsoft_first_party_sig : Signal where
  key := "microsoft_first_party"
  severity := "info"
  title := "Microsoft first-party app"
  detail := "This app is published by Microsoft and was automatically provisioned in your tenant. It cannot be deleted or fully customised by tenant admins. Review whether the associated Microsoft service is still in use and correctly scoped."
  score_contribution := 0

def tool_artifact_sig : Signal where
  key := "tool_artifact"
  severity := "info"
  title := "Enterprise-Zapp scan app"
  detail := "This app was created by Enterprise-Zapp’s setup.ps1 script. Remember to delete it after your audit is complete to avoid leaving unused credentials in your tenant."
  score_contribution := 0

/-! ## Rule blocks

`analyze_app` appends signals block by block; each block below returns
the (zero or more) signals its section of the source appends, in order. -/

/-- Sign-in / staleness block (skipped for Microsoft first-party apps;
`never_signed_in` and `stale` are an if/elif pair). -/
def signin_signals (sp : SP) (stale_days now : Int) : List Signal :=
  if is_microsoft_first_partyOf sp then []
  else if (last_sign_in_dtOf sp).isNone && sign_inTruthy sp then
    [never_signed_in_sig]
  else
    match days_sinceOf now sp with
    | some d => if stale_days < d then [stale_sig d stale_days (last_sign_in_rawOf sp)] else []
    | none => []

/-- Ownership block (skipped for Microsoft first-party apps;
`no_owners` and `disabled_owner` are an if/elif pair). -/
def owner_signals (sp : SP) : List Signal :=
  if is_microsoft_first_partyOf sp then []
  else if (ownersOf sp).length = 0 then [no_owners_sig]
  else if !(disabled_owner_idsOf sp).isEmpty then
    [disabled_owner_sig (disabled_owner_idsOf sp).length (ownersOf sp).length]
  else []

/-- The `no_assignments` block. -/
def assignment_signals (sp : SP) : List Signal :=
  if decide ((assignmentsTo sp).length = 0) && account_enabledOf sp &&
      !(["ManagedIdentity", "SocialIdp"].contains (sp_typeOf sp)) &&
      !is_microsoft_first_partyOf sp then
    [no_assignments_sig]
  else []

/-- The `disabled_sp` block. -/
def disabled_sp_signals (sp : SP) : List Signal :=
  if !account_enabledOf sp then [disabled_sp_sig] else []

def expired_secret_signals (sp : SP) (now : Int) : List Signal :=
  if has_expired_secretOf sp now then [expired_secret_sig] else []

def expired_cert_signals (sp : SP) (now : Int) : List Signal :=
  if has_expired_certOf sp now then [expired_cert_sig] else []

def near_expiry_secret_signals (sp : SP) (now : Int) : List Signal :=
  if has_near_expiry_secretOf sp now && !has_expired_secretOf sp now then
    [near_expiry_secret_sig]
  else []

def near_expiry_cert_signals (sp : SP) (now : Int) : List Signal :=
  if has_near_expiry_certOf sp now && !has_expired_certOf sp now then
    [near_expiry_cert_sig]
  else []

def expiry_warning_secret_signals (sp : SP) (now : Int) : List Signal :=
  if has_expiry_warning_secretOf sp now && !has_expired_secretOf sp now &&
      !has_near_expiry_secretOf sp now then
    [expiry_warning_secret_sig]
  else []

def expiry_warning_cert_signals (sp : SP) (now : Int) : List Signal :=
  if has_expiry_warning_certOf sp now && !has_expired_certOf sp now &&
      !has_near_expiry_certOf sp now then
    [expiry_warning_cert_sig]
  else []

def long_lived_signals (sp : SP) : List Signal :=
  if decide (0 < (long_livedOf sp).length) then
    [long_lived_sig (long_livedOf sp).length]
  else []

def mixed_signals (sp : SP) : List Signal :=
  if has_mixed_credentialsOf sp then [mixed_credential_sig] else []

def no_reply_signals (sp : SP) : List Signal :=
  if has_no_reply_urlsOf sp then [no_reply_urls_sig] else []

def wildcard_signals (sp : SP) : List Signal :=
  if has_wildcard_redirectOf sp then [wildcard_redirect_sig] else []

/-- The `stale_signal = any(s.key in ("stale", "never_signed_in") for s in signals)`:
of the blocks appended before this test runs, only the sign-in block can
contain those keys, so the scan over the accumulated list reduces to a
scan over the sign-in block. -/
def stale_flag (sp : SP) (stale_days now : Int) : Bool :=
  (signin_signals sp stale_days now).any fun s =>
    s.key == "stale" || s.key == "never_signed_in"

def high_priv_stale_signals (sp : SP) (stale_days now : Int) : List Signal :=
  if has_high_privilegeOf sp && stale_flag sp stale_days now then
    [high_privilege_stale_sig]
  else []

/-- The `scope_list = ", ".join(sorted(set(matched_delegated_scopes)))`. -/
def scope_listOf (sp : SP) : String :=
  String.intercalate ", " (pySortStrings (matched_delegated_scopesOf sp).dedup)

def excessive_signals (sp : SP) (stale_days now : Int) : List Signal :=
  if has_excessive_delegatedOf sp then
    if stale_flag sp stale_days now then [excessive_delegated_stale_sig (scope_listOf sp)]
    else [excessive_delegated_sig (scope_listOf sp)]
  else []

def implicit_signals (sp : SP) : List Signal :=
  if has_implicit_grantOf sp then [implicit_grant_sig] else []

def multi_tenant_signals (sp : SP) : List Signal :=
  if is_multi_tenantOf sp && !is_microsoft_first_partyOf sp then
    if has_high_privilegeOf sp || has_excessive_delegatedOf sp then
      [multi_tenant_high_sig (sign_in_audienceOf sp)]
    else [multi_tenant_medium_sig (sign_in_audienceOf sp)]
  else []

def microsoft_signals (sp : SP) : List Signal :=
  if is_microsoft_first_partyOf sp then [microsoft_first_party_sig] else []

def tool_artifact_signals (sp : SP) : List Signal :=
  if is_tool_artifactOf sp then [tool_artifact_sig] else []

/-- The full signal list built by `analyze_app`, in append order. -/
def app_signals (sp : SP) (stale_days now : Int) : List Signal :=
  signin_signals sp stale_days now ++ owner_signals sp ++ assignment_signals sp ++
    disabled_sp_signals sp ++ expired_secret_signals sp now ++
    expired_cert_signals sp now ++ near_expiry_secret_signals sp now ++
    near_expiry_cert_signals sp now ++ expiry_warning_secret_signals sp now ++
    expiry_warning_cert_signals sp now ++ long_lived_signals sp ++
    mixed_signals sp ++ no_reply_signals sp ++ wildcard_signals sp ++
    high_priv_stale_signals sp stale_days now ++
    excessive_signals sp stale_days now ++ implicit_signals sp ++
    multi_tenant_signals sp ++ microsoft_signals sp ++ tool_artifact_signals sp

/-- The keys of the triggered signals, in order. -/
def signal_keys (sp : SP) (stale_days now : Int) : List String :=
  (app_signals sp stale_days now).map Signal.key

/-! ## Recommendation selection -/

def severity_order : List String := ["critical", "high", "medium", "low", "info"]

/-- The `_recommendation_for_signal`: the static recommendation table with a
generic fallback (`account_enabled` is accepted but not consulted, as in
the source). -/
def _recommendation_for_signal (key : String) (_account_enabled : Bool) : String :=
  match key with
  | "never_signed_in" => "Review whether this app was ever needed. If not in use, disable then delete."
  | "stale" => "Verify with the app owner whether this is still in use. If unused, disable and plan for removal."
  | "no_owners" => "Assign at least two owners to this app to ensure accountability."
  | "disabled_owner" => "Update app ownership — current owners are disabled accounts."
  | "no_assignments" => "If this app requires user/group access, add assignments. Otherwise consider whether it is still needed."
  | "disabled_sp" => "If the app is intentionally decommissioned, delete the service principal to reduce attack surface."
  | "expired_secret" => "Rotate or remove expired client secrets immediately."
  | "expired_cert" => "Rotate or remove expired certificates immediately."
  | "near_expiry_secret" => "Rotate client secret before expiry to avoid service disruption."
  | "near_expiry_cert" => "Rotate certificate before expiry to avoid service disruption."
  | "high_privilege_stale" => "High-privilege app with no recent sign-in activity — investigate necessity and disable if unused."
  | "long_lived_secret" => "Replace long-lived secrets with shorter-lived credentials to reduce breach impact."
  | "expiry_warning_secret" => "Client secret expiring in 30-90 days — schedule rotation now to avoid last-minute disruption."
  | "expiry_warning_cert" => "Certificate expiring in 30-90 days — schedule rotation now to avoid last-minute disruption."
  | "no_reply_urls" => "This app has credentials but no redirect URIs configured. Verify it is an intentional service/daemon app. If not in use, consider removal."
  | "wildcard_redirect_uri" => "Remove wildcard or localhost redirect URIs — these enable token theft via open redirect attacks."
  | "excessive_delegated_permissions" => "Review and restrict delegated permissions. High-privilege delegated scopes grant broad access when users consent. Remove scopes not actively needed."
  | "implicit_grant_enabled" => "Disable implicit grant flows in the app registration’s Authentication blade. Migrate to authorization code flow with PKCE."
  | "multi_tenant_app" => "Confirm this app must accept external tenant logins. If it only serves your organisation, restrict to ’Accounts in this organizational directory only’ in the app registration manifest."
  | "mixed_credential_types" => "This app has both client secrets and certificates. Remove any credentials that are no longer needed — each live credential is an independent attack vector."
  | "microsoft_first_party" => "Microsoft first-party app — verify this service is still required and review any security signals flagged above."
  | _ => "Review and remediate flagged issues."

/-- The `_primary_recommendation`: drop the first-party marker, then return
the recommendation of the first signal (in list order) at the most severe
level present. -/
def _primary_recommendation (signals : List Signal) (account_enabled : Bool) : String :=
  if signals.isEmpty then
    "No issues detected. Periodic review recommended."
  else
    let is_microsoft := signals.any fun s => s.key == "microsoft_first_party"
    let active_signals :=
      if is_microsoft then signals.filter (fun s => !(s.key == "microsoft_first_party"))
      else signals
    if active_signals.isEmpty then
      "Microsoft first-party app — verify this service is still required in your tenant."
    else
      match severity_order.findSome? (fun sev => active_signals.find? (fun sig => sig.severity == sev)) with
      | some sig => _recommendation_for_signal sig.key account_enabled
      | none => "Review flagged signals and remediate as appropriate."

/-! ## Core analysis -/

/-- Python `sp.get(k) or None`: an empty string is collapsed to `None`. -/
def pyOrNoneStr : Option String → Option String
  | some d => if d == "" then none else some d
  | none => none

/-- Evaluate a single enriched service-principal record
(`analyze_app(sp, stale_days)`), with the current UTC instant `now`
passed explicitly.  The score is the running sum of the contributions of
the appended signals, capped at 100 as a final step. -/
def analyze_app (sp : SP) (stale_days now : Int) : AppResult :=
  let signals := app_signals sp stale_days now
  let score := min (signals.foldl (fun acc s => acc + s.score_contribution) 0) 100
  { sp_id := sp.id.getD ""
    app_id := sp.appId.getD ""
    display_name := display_nameOf sp
    account_enabled := account_enabledOf sp
    sp_type := sp_typeOf sp
    created_datetime := sp.createdDateTime
    last_sign_in := (last_sign_in_rawOf sp).map TsStr.text
    days_since_sign_in := days_sinceOf now sp
    owner_count := (ownersOf sp).length
    assignment_count := (assignmentsTo sp).length
    has_expired_secret := has_expired_secretOf sp now
    has_expired_cert := has_expired_certOf sp now
    has_near_expiry_secret := has_near_expiry_secretOf sp now
    has_near_expiry_cert := has_near_expiry_certOf sp now
    has_high_privilege := has_high_privilegeOf sp
    signals := signals
    risk_score := score
    risk_band := _risk_band score
    primary_recommendation := _primary_recommendation signals (account_enabledOf sp)
    tags := sp.tags.getD []
    is_microsoft_first_party := is_microsoft_first_partyOf sp
    is_tool_artifact := is_tool_artifactOf sp
    disabled_owner_count := (disabled_owner_idsOf sp).length
    description := pyOrNoneStr sp.description
    notes := pyOrNoneStr sp.notes
    has_expiry_warning_secret := has_expiry_warning_secretOf sp now
    has_expiry_warning_cert := has_expiry_warning_certOf sp now
    has_no_reply_urls := has_no_reply_urlsOf sp
    has_wildcard_redirect := has_wildcard_redirectOf sp
    has_excessive_delegated := has_excessive_delegatedOf sp
    has_implicit_grant := has_implicit_grantOf sp
    is_multi_tenant := is_multi_tenantOf sp
    has_mixed_credentials := has_mixed_credentialsOf sp
    owners := ownersOf sp
    password_credentials := password_credsOf sp
    key_credentials := key_credsOf sp
    delegated_grants := delegated_grantsOf sp
    app_permissions := app_permissionsOf sp }

/-- The sort key order of `analyze_all`: descending risk score, ties
broken by ascending case-insensitive display name (the tuple key
`(-risk_score, display_name.lower())` compared lexicographically). -/
def resultLe (a b : AppResult) : Bool :=
  decide (b.risk_score < a.risk_score) ||
    (decide (a.risk_score = b.risk_score) &&
      pyStrLe (pyLower a.display_name) (pyLower b.display_name))

/-- The top-level snapshot mapping; only its `apps` entry is read by
`analyze_all`. -/
structure Snapshot where
  apps : Option (List SP) := none
deriving DecidableEq, Repr

/-- The `analyze_all(raw_data, stale_days)`: map `analyze_app` over the app
list (default empty) and sort. -/
def analyze_all (raw_data : Snapshot) (stale_days now : Int) : List AppResult :=
  let results := (raw_data.apps.getD []).map fun sp => analyze_app sp stale_days now
  insertionSort resultLe results

/-- The dynamically-typed top-level argument of `analyze_all`: either a
mapping (modelled by `Snapshot`) or any non-mapping value, on which the
attribute access `raw_data.get` raises `AttributeError`. -/
inductive RawData where
  | mapping (snap : Snapshot)
  | nonMapping
deriving DecidableEq, Repr

/-- The `analyze_all` as invoked on a dynamically-typed value: a non-mapping
argument escalates (Python raises before any app is evaluated); a mapping
is analysed normally. -/
def analyze_all_dyn (raw_data : RawData) (stale_days now : Int) :
    Except String (List AppResult) :=
  match raw_data with
  | .mapping snap => .ok (analyze_all snap stale_days now)
  | .nonMapping => .error "AttributeError: object has no attribute get"

/-! ## Conditional Access coverage (`ca_analyzer.py`) -/

/-- The `conditions.applications` sub-dict of a raw CA policy. -/
structure RawAppsCondition where
  includeApplications : Option (List String) := none
  excludeApplications : Option (List String) := none
deriving DecidableEq, Repr

/-- The `conditions` sub-dict of a raw CA policy. -/
structure RawConditions where
  applications : Option RawAppsCondition := none
deriving DecidableEq, Repr

/-- A raw Graph CA policy dict (the fields `_parse_policies` reads). -/
structure RawPolicy where
  id : Option String := none
  displayName : Option String := none
  state : Option String := none
  conditions : Option RawConditions := none
  createdDateTime : Option String := none
  modifiedDateTime : Option String := none
deriving DecidableEq, Repr

/-- The `PolicySummary` dataclass. -/
structure PolicySummary where
  policy_id : String
  display_name : String
  state : String
  includes_all_apps : Bool
  included_app_ids : List String
  excluded_app_ids : List String
  created_datetime : Option String
  modified_datetime : Option String
deriving DecidableEq, Repr

/-- The `PolicySummary.is_enforced`: the state is exactly `"enabled"`. -/
def PolicySummary.is_enforced (p : PolicySummary) : Bool := p.state == "enabled"

/-- The `AppCoverage` dataclass. -/
structure AppCoverage where
  app_id : String
  display_name : String
  is_covered : Bool
  policy_names : List String
deriving DecidableEq, Repr

/-- The `_parse_policies`: convert raw policy dicts into summaries.  The
include list is scanned case-insensitively for the literal `"all"`; the
sentinels `"all"`/`"none"` are dropped from the included-id set; both id
sets are lower-cased. -/
def _parse_policies (ca_policies : List RawPolicy) : List PolicySummary :=
  ca_policies.map fun p =>
    let conditions := p.conditions.getD {}
    let apps_cond := conditions.applications.getD {}
    let include_apps := apps_cond.includeApplications.getD []
    let exclude_apps := apps_cond.excludeApplications.getD []
    let includes_all := include_apps.any fun a => pyLower a == "all"
    { policy_id := p.id.getD ""
      display_name := p.displayName.getD "(unnamed)"
      state := p.state.getD "disabled"
      includes_all_apps := includes_all
      included_app_ids :=
        (include_apps.filter fun a =>
          !(pyLower a == "all" || pyLower a == "none")).map pyLower
      excluded_app_ids := exclude_apps.map pyLower
      created_datetime := p.createdDateTime
      modified_datetime := p.modifiedDateTime }

/-- Whether an enforced policy covers the (lower-cased) app id: it is
included (via the includes-all flag or id membership) and not excluded. -/
def policyCovers (policy : PolicySummary) (app_id : String) : Bool :=
  (policy.includes_all_apps || policy.included_app_ids.contains app_id) &&
    !(policy.excluded_app_ids.contains app_id)

/-- The `analyze_ca_coverage(ca_policies, apps)`: per-app coverage by the
enforced (state == "enabled") policies, plus the full summary list. -/
def analyze_ca_coverage (ca_policies : List RawPolicy) (apps : List SP) :
    List AppCoverage × List PolicySummary :=
  let policy_summaries := _parse_policies ca_policies
  let enforced := policy_summaries.filter fun p => p.is_enforced
  let app_coverages := apps.map fun app =>
    let app_id := pyLower (app.appId.getD "")
    let covering := (enforced.filter fun policy => policyCovers policy app_id).map
      fun policy => policy.display_name
    { app_id := app_id
      display_name := app.displayName.getD "(unnamed)"
      is_covered := !covering.isEmpty
      policy_names := covering : AppCoverage }
  (app_coverages, policy_summaries)

/-! ## Helper lemmas about the rule blocks -/

/-- Membership in a conditional singleton block, at the key level. -/
theorem mem_key_ite {c : Prop} [Decidable c] {x : Signal} {k : String} :
    (k ∈ (if c then [x] else []).map Signal.key) ↔ (c ∧ k = x.key) := by
  split <;> simp [*]

/-- Membership in a conditional singleton block, at the signal level. -/
theorem mem_sig_ite {c : Prop} [Decidable c] {x s : Signal} :
    (s ∈ (if c then [x] else [])) ↔ (c ∧ s = x) := by
  split <;> simp [*]

/-- A guarded `decide` over an optional value equals `true` iff the value
is present and satisfies the predicate. -/
theorem opt_decide_eq_true {o : Option Int} {P : Int → Prop} [DecidablePred P] :
    ((match o with
      | some d => decide (P d)
      | none => false) = true) ↔ ∃ d, o = some d ∧ P d := by
  cases o <;> simp

/-- Keys of the sign-in block. -/
theorem signin_keys_iff {sp : SP} {stale_days now : Int} {k : String} :
    k ∈ (signin_signals sp stale_days now).map Signal.key ↔
      (is_microsoft_first_partyOf sp = false ∧
        ((last_sign_in_dtOf sp).isNone && sign_inTruthy sp) = true ∧
        k = "never_signed_in") ∨
      (is_microsoft_first_partyOf sp = false ∧
        ((last_sign_in_dtOf sp).isNone && sign_inTruthy sp) = false ∧
        (∃ d, days_sinceOf now sp = some d ∧ stale_days < d) ∧
        k = "stale") := by
  unfold signin_signals
  cases h1 : is_microsoft_first_partyOf sp
  · cases h2 : (last_sign_in_dtOf sp).isNone && sign_inTruthy sp
    · cases h3 : days_sinceOf now sp with
      | none => simp [h3]
      | some d =>
        by_cases h4 : stale_days < d
        · simp [h3, h4, stale_sig]
        · simp [h3, h4]
    · simp [never_signed_in_sig]
  · simp

/-- Keys of the ownership block. -/
theorem owner_keys_iff {sp : SP} {k : String} :
    k ∈ (owner_signals sp).map Signal.key ↔
      (is_microsoft_first_partyOf sp = false ∧ (ownersOf sp).length = 0 ∧
        k = "no_owners") ∨
      (is_microsoft_first_partyOf sp = false ∧ ¬(ownersOf sp).length = 0 ∧
        (disabled_owner_idsOf sp).isEmpty = false ∧ k = "disabled_owner") := by
  unfold owner_signals
  cases h1 : is_microsoft_first_partyOf sp
  · by_cases h2 : (ownersOf sp).length = 0
    · simp [h2, no_owners_sig]
    · cases h3 : (disabled_owner_idsOf sp).isEmpty
      · simp [h2, h3, disabled_owner_sig]
      · simp [h2, h3]
  · simp

/-- Keys of the excessive-delegated block (both branches share a key). -/
theorem excessive_keys_iff {sp : SP} {stale_days now : Int} {k : String} :
    k ∈ (excessive_signals sp stale_days now).map Signal.key ↔
      (has_excessive_delegatedOf sp = true ∧
        k = "excessive_delegated_permissions") := by
  unfold excessive_signals
  cases h1 : has_excessive_delegatedOf sp
  · simp
  · cases h2 : stale_flag sp stale_days now <;>
      simp [excessive_delegated_stale_sig, excessive_delegated_sig]

/-- Keys of the multi-tenant block (both branches share a key). -/
theorem multi_tenant_keys_iff {sp : SP} {k : String} :
    k ∈ (multi_tenant_signals sp).map Signal.key ↔
      ((is_multi_tenantOf sp && !is_microsoft_first_partyOf sp) = true ∧
        k = "multi_tenant_app") := by
  unfold multi_tenant_signals
  cases h1 : is_multi_tenantOf sp && !is_microsoft_first_partyOf sp
  · simp
  · cases h2 : has_high_privilegeOf sp || has_excessive_delegatedOf sp <;>
      simp [multi_tenant_high_sig, multi_tenant_medium_sig]

/-- Master characterisation of `signal_keys`: a key is triggered exactly
when the guard of its rule block holds. -/
theorem mem_signal_keys_iff {sp : SP} {stale_days now : Int} {k : String} :
    k ∈ signal_keys sp stale_days now ↔
      (is_microsoft_first_partyOf sp = false ∧
        ((last_sign_in_dtOf sp).isNone && sign_inTruthy sp) = true ∧
        k = "never_signed_in") ∨
      (is_microsoft_first_partyOf sp = false ∧
        ((last_sign_in_dtOf sp).isNone && sign_inTruthy sp) = false ∧
        (∃ d, days_sinceOf now sp = some d ∧ stale_days < d) ∧ k = "stale") ∨
      (is_microsoft_first_partyOf sp = false ∧ (ownersOf sp).length = 0 ∧
        k = "no_owners") ∨
      (is_microsoft_first_partyOf sp = false ∧ ¬(ownersOf sp).length = 0 ∧
        (disabled_owner_idsOf sp).isEmpty = false ∧ k = "disabled_owner") ∨
      ((decide ((assignmentsTo sp).length = 0) && account_enabledOf sp &&
          !(["ManagedIdentity", "SocialIdp"].contains (sp_typeOf sp)) &&
          !is_microsoft_first_partyOf sp) = true ∧ k = "no_assignments") ∨
      ((!account_enabledOf sp) = true ∧ k = "disabled_sp") ∨
      (has_expired_secretOf sp now = true ∧ k = "expired_secret") ∨
      (has_expired_certOf sp now = true ∧ k = "expired_cert") ∨
      ((has_near_expiry_secretOf sp now && !has_expired_secretOf sp now) = true ∧
        k = "near_expiry_secret") ∨
      ((has_near_expiry_certOf sp now && !has_expired_certOf sp now) = true ∧
        k = "near_expiry_cert") ∨
      ((has_expiry_warning_secretOf sp now && !has_expired_secretOf sp now &&
          !has_near_expiry_secretOf sp now) = true ∧ k = "expiry_warning_secret") ∨
      ((has_expiry_warning_certOf sp now && !has_expired_certOf sp now &&
          !has_near_expiry_certOf sp now) = true ∧ k = "expiry_warning_cert") ∨
      (decide (0 < (long_livedOf sp).length) = true ∧ k = "long_lived_secret") ∨
      (has_mixed_credentialsOf sp = true ∧ k = "mixed_credential_types") ∨
      (has_no_reply_urlsOf sp = true ∧ k = "no_reply_urls") ∨
      (has_wildcard_redirectOf sp = true ∧ k = "wildcard_redirect_uri") ∨
      ((has_high_privilegeOf sp && stale_flag sp stale_days now) = true ∧
        k = "high_privilege_stale") ∨
      (has_excessive_delegatedOf sp = true ∧
        k = "excessive_delegated_permissions") ∨
      (has_implicit_grantOf sp = true ∧ k = "implicit_grant_enabled") ∨
      ((is_multi_tenantOf sp && !is_microsoft_first_partyOf sp) = true ∧
        k = "multi_tenant_app") ∨
      (is_microsoft_first_partyOf sp = true ∧ k = "microsoft_first_party") ∨
      (is_tool_artifactOf sp = true ∧ k = "tool_artifact") := by
  simp only [signal_keys, app_signals, List.map_append, List.mem_append,
    signin_keys_iff, owner_keys_iff, excessive_keys_iff, multi_tenant_keys_iff,
    assignment_signals, disabled_sp_signals, expired_secret_signals,
    expired_cert_signals, near_expiry_secret_signals, near_expiry_cert_signals,
    expiry_warning_secret_signals, expiry_warning_cert_signals,
    long_lived_signals, mixed_signals, no_reply_signals, wildcard_signals,
    high_priv_stale_signals, implicit_signals, microsoft_signals,
    tool_artifact_signals, mem_key_ite, no_assignments_sig, disabled_sp_sig,
    expired_secret_sig, expired_cert_sig, near_expiry_secret_sig,
    near_expiry_cert_sig, expiry_warning_secret_sig, expiry_warning_cert_sig,
    long_lived_sig, mixed_credential_sig, no_reply_urls_sig,
    wildcard_redirect_sig, high_privilege_stale_sig, implicit_grant_sig,
    microsoft_first_party_sig, tool_artifact_sig, or_assoc]

/-- Every triggered signal has one of the five catalogued severities and a
non-negative score contribution. -/
theorem app_signals_wf (sp : SP) (stale_days now : Int) :
    ∀ s ∈ app_signals sp stale_days now,
      s.severity ∈ severity_order ∧ 0 ≤ s.score_contribution := by
  intro s hs
  simp only [app_signals, List.mem_append, or_assoc] at hs
  rcases hs with h|h|h|h|h|h|h|h|h|h|h|h|h|h|h|h|h|h|h|h
  all_goals
    simp only [signin_signals, owner_signals, assignment_signals,
      disabled_sp_signals, expired_secret_signals, expired_cert_signals,
      near_expiry_secret_signals, near_expiry_cert_signals,
      expiry_warning_secret_signals, expiry_warning_cert_signals,
      long_lived_signals, mixed_signals, no_reply_signals, wildcard_signals,
      high_priv_stale_signals, excessive_signals, implicit_signals,
      multi_tenant_signals, microsoft_signals, tool_artifact_signals] at h
  all_goals repeat' split at h
  all_goals
    simp_all [severity_order, never_signed_in_sig, stale_sig, no_owners_sig,
      disabled_owner_sig, no_assignments_sig, disabled_sp_sig,
      expired_secret_sig, expired_cert_sig, near_expiry_secret_sig,
      near_expiry_cert_sig, expiry_warning_secret_sig, expiry_warning_cert_sig,
      long_lived_sig, mixed_credential_sig, no_reply_urls_sig,
      wildcard_redirect_sig, high_privilege_stale_sig,
      excessive_delegated_stale_sig, excessive_delegated_sig,
      implicit_grant_sig, multi_tenant_high_sig, multi_tenant_medium_sig,
      microsoft_first_party_sig, tool_artifact_sig]

/-- Folding the score accumulation over a signal list adds the sum of the
contributions. -/
theorem foldl_contribution_eq (l : List Signal) :
    ∀ a : Int, l.foldl (fun acc s => acc + s.score_contribution) a =
      a + (l.map Signal.score_contribution).sum := by
  induction l with
  | nil => intro a; simp
  | cons x xs ih => intro a; simp [List.foldl, ih]; ring

/-! ## Sorting lemmas -/

theorem mem_insertLe {α : Type} (le : α → α → Bool) (a : α) :
    ∀ (l : List α) (x : α), x ∈ insertLe le a l ↔ x = a ∨ x ∈ l := by
  intro l
  induction l with
  | nil => intro x; simp [insertLe]
  | cons b bs ih =>
    intro x
    unfold insertLe
    split
    · simp only [List.mem_cons, ih]
      try tauto
    · simp only [List.mem_cons]
      try tauto

theorem perm_insertLe {α : Type} (le : α → α → Bool) (a : α) :
    ∀ l : List α, List.Perm (insertLe le a l) (a :: l) := by
  intro l
  induction l with
  | nil => simp [insertLe]
  | cons b bs ih =>
    unfold insertLe
    split
    · exact ((ih.cons b).trans (List.Perm.swap a b bs))
    · exact List.Perm.refl _

theorem perm_insertionSort {α : Type} (le : α → α → Bool) :
    ∀ l : List α, List.Perm (insertionSort le l) l := by
  intro l
  induction l with
  | nil => simp [insertionSort]
  | cons x xs ih =>
    exact (perm_insertLe le x (insertionSort le xs)).trans (ih.cons x)

theorem pairwise_insertLe {α : Type} {le : α → α → Bool}
    (htrans : ∀ a b c, le a b = true → le b c = true → le a c = true)
    (htot : ∀ a b, le a b = true ∨ le b a = true) (a : α) :
    ∀ l : List α, List.Pairwise (fun x y => le x y = true) l →
      List.Pairwise (fun x y => le x y = true) (insertLe le a l) := by
  intro l
  induction l with
  | nil => intro _; simp [insertLe]
  | cons b bs ih =>
    intro hl
    rcases List.pairwise_cons.mp hl with ⟨hb, hbs⟩
    unfold insertLe
    split
    · rename_i hcond
      simp only [Bool.and_eq_true] at hcond
      rcases hcond with ⟨hba, -⟩
      refine List.pairwise_cons.mpr ⟨?_, ih hbs⟩
      intro x hx
      rcases (mem_insertLe le a bs x).mp hx with rfl | hx
      · exact hba
      · exact hb x hx
    · rename_i hcond
      have hab : le a b = true := by
        rcases htot a b with h | h
        · exact h
        · cases hba : le a b
          · exact absurd (by simp [h, hba]) hcond
          · rfl
      refine List.pairwise_cons.mpr ⟨?_, hl⟩
      intro x hx
      rcases List.mem_cons.mp hx with rfl | hx
      · exact hab
      · exact htrans a b x hab (hb x hx)

theorem sorted_insertionSort {α : Type} {le : α → α → Bool}
    (htrans : ∀ a b c, le a b = true → le b c = true → le a c = true)
    (htot : ∀ a b, le a b = true ∨ le b a = true) :
    ∀ l : List α, List.Pairwise (fun x y => le x y = true) (insertionSort le l) := by
  intro l
  induction l with
  | nil => simp [insertionSort]
  | cons x xs ih => exact pairwise_insertLe htrans htot x _ ih

/-- The `charListLe` is total. -/
theorem charListLe_total : ∀ x y : List Char,
    charListLe x y = true ∨ charListLe y x = true := by
  intro x
  induction x with
  | nil => intro y; left; rfl
  | cons a as ih =>
    intro y
    cases y with
    | nil => right; rfl
    | cons b bs =>
      unfold charListLe
      by_cases h1 : a.toNat < b.toNat
      · left; simp [h1]
      · by_cases h2 : b.toNat < a.toNat
        · right; simp [h1, h2]
        · rcases ih bs with h | h
          · left; simp [h1, h2, h]
          · right; simp [h1, h2, h]

/-- The `charListLe` is transitive. -/
theorem charListLe_trans : ∀ x y z : List Char,
    charListLe x y = true → charListLe y z = true → charListLe x z = true := by
  intro x
  induction x with
  | nil => intro y z _ _; rfl
  | cons a as ih =>
    intro y z hxy hyz
    cases y with
    | nil => simp [charListLe] at hxy
    | cons b bs =>
      cases z with
      | nil => simp [charListLe] at hyz
      | cons c cs =>
        unfold charListLe at hxy hyz ⊢
        by_cases h1 : a.toNat < b.toNat
        · by_cases h2 : b.toNat < c.toNat
          · simp [show a.toNat < c.toNat by omega]
          · have h3 : ¬c.toNat < b.toNat := by
              intro hc; simp [h2, hc] at hyz
            simp [show a.toNat < c.toNat by omega]
        · have h2 : ¬b.toNat < a.toNat := by
            intro hb; simp [h1, hb] at hxy
          by_cases h3 : b.toNat < c.toNat
          · simp [show a.toNat < c.toNat by omega]
          · have h4 : ¬c.toNat < b.toNat := by
              intro hc; simp [h3, hc] at hyz
            have hrec1 : charListLe as bs = true := by simpa [h1, h2] using hxy
            have hrec2 : charListLe bs cs = true := by simpa [h3, h4] using hyz
            simp [show ¬a.toNat < c.toNat by omega, show ¬c.toNat < a.toNat by omega,
              ih bs cs hrec1 hrec2]

/-- The sort key order of `analyze_all` is total. -/
theorem resultLe_total : ∀ a b : AppResult,
    resultLe a b = true ∨ resultLe b a = true := by
  intro a b
  unfold resultLe
  rcases lt_trichotomy a.risk_score b.risk_score with h | h | h
  · right; simp [h]
  · rcases charListLe_total (pyLower a.display_name).data (pyLower b.display_name).data
      with hc | hc
    · left; simp [h, pyStrLe, hc]
    · right; simp [h, pyStrLe, hc]
  · left; simp [h]

/-- The sort key order of `analyze_all` is transitive. -/
theorem resultLe_trans : ∀ a b c : AppResult,
    resultLe a b = true → resultLe b c = true → resultLe a c = true := by
  intro a b c hab hbc
  unfold resultLe at hab hbc ⊢
  simp only [Bool.or_eq_true, Bool.and_eq_true, decide_eq_true_eq, pyStrLe] at hab hbc ⊢
  rcases hab with h1 | ⟨h1, h1'⟩ <;> rcases hbc with h2 | ⟨h2, h2'⟩
  · left; omega
  · left; omega
  · left; omega
  · right; exact ⟨by omega, charListLe_trans _ _ _ h1' h2'⟩

/-! ## Key-membership corollaries -/

theorem mem_expired_secret_iff (sp : SP) (st now : Int) :
    "expired_secret" ∈ signal_keys sp st now ↔
      has_expired_secretOf sp now = true := by
  simp [mem_signal_keys_iff]

theorem mem_near_secret_iff (sp : SP) (st now : Int) :
    "near_expiry_secret" ∈ signal_keys sp st now ↔
      has_near_expiry_secretOf sp now = true ∧
      has_expired_secretOf sp now = false := by
  simp [mem_signal_keys_iff]

theorem mem_warn_secret_iff (sp : SP) (st now : Int) :
    "expiry_warning_secret" ∈ signal_keys sp st now ↔
      has_expiry_warning_secretOf sp now = true ∧
      has_expired_secretOf sp now = false ∧
      has_near_expiry_secretOf sp now = false := by
  simp [mem_signal_keys_iff]
  tauto

theorem mem_expired_cert_iff (sp : SP) (st now : Int) :
    "expired_cert" ∈ signal_keys sp st now ↔
      has_expired_certOf sp now = true := by
  simp [mem_signal_keys_iff]

theorem mem_near_cert_iff (sp : SP) (st now : Int) :
    "near_expiry_cert" ∈ signal_keys sp st now ↔
      has_near_expiry_certOf sp now = true ∧
      has_expired_certOf sp now = false := by
  simp [mem_signal_keys_iff]

theorem mem_warn_cert_iff (sp : SP) (st now : Int) :
    "expiry_warning_cert" ∈ signal_keys sp st now ↔
      has_expiry_warning_certOf sp now = true ∧
      has_expired_certOf sp now = false ∧
      has_near_expiry_certOf sp now = false := by
  simp [mem_signal_keys_iff]
  tauto

theorem mem_never_signed_in_iff (sp : SP) (st now : Int) :
    "never_signed_in" ∈ signal_keys sp st now ↔
      is_microsoft_first_partyOf sp = false ∧
      last_sign_in_dtOf sp = none ∧ sign_inTruthy sp = true := by
  simp [mem_signal_keys_iff, Option.isNone_iff_eq_none]

/-! ## Credential-flag semantics -/

theorem has_expired_secret_iff (sp : SP) (now : Int) :
    has_expired_secretOf sp now = true ↔
      ∃ c ∈ password_credsOf sp, ∃ d, credDaysLeft now c = some d ∧ d < 0 := by
  simp [has_expired_secretOf, List.any_eq_true, opt_decide_eq_true]

theorem has_near_secret_iff (sp : SP) (now : Int) :
    has_near_expiry_secretOf sp now = true ↔
      ∃ c ∈ password_credsOf sp, ∃ d, credDaysLeft now c = some d ∧
        0 ≤ d ∧ d ≤ 30 := by
  simp only [has_near_expiry_secretOf, List.any_eq_true, opt_decide_eq_true,
    NEAR_EXPIRY_DAYS]
  constructor
  · rintro ⟨c, hc, d, hd, h1, h2⟩
    exact ⟨c, hc, d, hd, by omega, h2⟩
  · rintro ⟨c, hc, d, hd, h1, h2⟩
    exact ⟨c, hc, d, hd, by omega, h2⟩

theorem has_warn_secret_iff (sp : SP) (now : Int) :
    has_expiry_warning_secretOf sp now = true ↔
      ∃ c ∈ password_credsOf sp, ∃ d, credDaysLeft now c = some d ∧
        30 < d ∧ d ≤ 90 := by
  simp only [has_expiry_warning_secretOf, List.any_eq_true, opt_decide_eq_true,
    NEAR_EXPIRY_DAYS, NEAR_EXPIRY_WARN_DAYS]
  constructor
  · rintro ⟨c, hc, d, hd, h1, h2, h3⟩
    exact ⟨c, hc, d, hd, by omega, h3⟩
  · rintro ⟨c, hc, d, hd, h1, h2⟩
    exact ⟨c, hc, d, hd, by omega, by omega, h2⟩

theorem has_expired_cert_iff (sp : SP) (now : Int) :
    has_expired_certOf sp now = true ↔
      ∃ c ∈ key_credsOf sp, ∃ d, credDaysLeft now c = some d ∧ d < 0 := by
  simp [has_expired_certOf, List.any_eq_true, opt_decide_eq_true]

theorem has_near_cert_iff (sp : SP) (now : Int) :
    has_near_expiry_certOf sp now = true ↔
      ∃ c ∈ key_credsOf sp, ∃ d, credDaysLeft now c = some d ∧
        0 ≤ d ∧ d ≤ 30 := by
  simp only [has_near_expiry_certOf, List.any_eq_true, opt_decide_eq_true,
    NEAR_EXPIRY_DAYS]
  constructor
  · rintro ⟨c, hc, d, hd, h1, h2⟩
    exact ⟨c, hc, d, hd, by omega, h2⟩
  · rintro ⟨c, hc, d, hd, h1, h2⟩
    exact ⟨c, hc, d, hd, by omega, h2⟩

theorem has_warn_cert_iff (sp : SP) (now : Int) :
    has_expiry_warning_certOf sp now = true ↔
      ∃ c ∈ key_credsOf sp, ∃ d, credDaysLeft now c = some d ∧
        30 < d ∧ d ≤ 90 := by
  simp only [has_expiry_warning_certOf, List.any_eq_true, opt_decide_eq_true,
    NEAR_EXPIRY_DAYS, NEAR_EXPIRY_WARN_DAYS]
  constructor
  · rintro ⟨c, hc, d, hd, h1, h2, h3⟩
    exact ⟨c, hc, d, hd, by omega, h3⟩
  · rintro ⟨c, hc, d, hd, h1, h2⟩
    exact ⟨c, hc, d, hd, by omega, by omega, h2⟩

/-! ## Claim theorems -/

/-- C7: for every integer score, `_risk_band` returns exactly one of the
five bands with no gap or overlap at the boundaries: score ≥ 75 is
critical, 50 ≤ score < 75 is high, 25 ≤ score < 50 is medium,
0 < score < 25 is low, score ≤ 0 is clean; in particular 74 is high, 75
critical, 49 medium, 50 high, 24 low, 25 medium, 0 clean and 1 low. -/
theorem claim_C7_band_boundaries :
    (∀ s : Int,
      _risk_band s ∈ ["critical", "high", "medium", "low", "clean"] ∧
      (75 ≤ s → _risk_band s = "critical") ∧
      (50 ≤ s ∧ s < 75 → _risk_band s = "high") ∧
      (25 ≤ s ∧ s < 50 → _risk_band s = "medium") ∧
      (0 < s ∧ s < 25 → _risk_band s = "low") ∧
      (s ≤ 0 → _risk_band s = "clean")) ∧
    _risk_band 74 = "high" ∧ _risk_band 75 = "critical" ∧
    _risk_band 49 = "medium" ∧ _risk_band 50 = "high" ∧
    _risk_band 24 = "low" ∧ _risk_band 25 = "medium" ∧
    _risk_band 0 = "clean" ∧ _risk_band 1 = "low" := by
  constructor
  · intro s
    constructor
    · simp only [_risk_band]
      split_ifs <;> simp
    · refine ⟨?_, ?_, ?_, ?_, ?_⟩ <;>
        (intro h
         simp only [_risk_band]
         split_ifs <;> first | rfl | omega)
  · refine ⟨?_, ?_, ?_, ?_, ?_, ?_, ?_, ?_⟩ <;> decide

/-- Witness for C7 at concrete scores. -/
theorem claim_C7_witness :
    _risk_band 80 = "critical" ∧ _risk_band 60 = "high" ∧
    _risk_band 30 = "medium" ∧ _risk_band 10 = "low" ∧
    _risk_band (-3) = "clean" :=
  ⟨(claim_C7_band_boundaries.1 80).2.1 (by norm_num),
   (claim_C7_band_boundaries.1 60).2.2.1 (by norm_num),
   (claim_C7_band_boundaries.1 30).2.2.2.1 (by norm_num),
   (claim_C7_band_boundaries.1 10).2.2.2.2.1 (by norm_num),
   (claim_C7_band_boundaries.1 (-3)).2.2.2.2.2 (by norm_num)⟩

/-- The C1 input record: disabled, ownerless, no credentials, no sign-in
activity block. -/
def c1_record : SP := { accountEnabled := some false, owners := some [] }

/-- C1: on a record with `accountEnabled=false`, empty `_owners`, no
credentials and no sign-in block, exactly `no_owners` (20, high) and
`disabled_sp` (10, medium) fire, `no_assignments` does not, the score is
30, the band is "medium", and the primary recommendation is the text the
table maps to `no_owners`, the most severe signal present. -/
theorem claim_C1_disabled_unowned_app :
    (analyze_app c1_record 90 0).signals.map
        (fun s => (s.key, s.severity, s.score_contribution)) =
      [("no_owners", "high", (20 : Int)), ("disabled_sp", "medium", (10 : Int))] ∧
    "no_assignments" ∉ signal_keys c1_record 90 0 ∧
    (analyze_app c1_record 90 0).risk_score = 30 ∧
    (analyze_app c1_record 90 0).risk_band = "medium" ∧
    (analyze_app c1_record 90 0).primary_recommendation =
      _recommendation_for_signal "no_owners" false ∧
    (analyze_app c1_record 90 0).primary_recommendation =
      "Assign at least two owners to this app to ensure accountability." := by
  refine ⟨?_, ?_, ?_, ?_, ?_, ?_⟩ <;> decide

/-- C2: for every record and stale threshold the risk score lies in
[0, 100]; every fired rule contributes a non-negative weight, and the
score is the sum of the contributions clamped to 100 in one final step. -/
theorem claim_C2_score_bounds :
    ∀ (sp : SP) (stale_days now : Int),
      0 ≤ (analyze_app sp stale_days now).risk_score ∧
      (analyze_app sp stale_days now).risk_score ≤ 100 ∧
      (∀ s ∈ (analyze_app sp stale_days now).signals, 0 ≤ s.score_contribution) ∧
      (analyze_app sp stale_days now).risk_score =
        min (((analyze_app sp stale_days now).signals.map
          Signal.score_contribution).sum) 100 := by
  intro sp st now
  have hwf := app_signals_wf sp st now
  have hsignals : (analyze_app sp st now).signals = app_signals sp st now := rfl
  have hscore : (analyze_app sp st now).risk_score =
      min ((app_signals sp st now).foldl
        (fun acc s => acc + s.score_contribution) 0) 100 := rfl
  have hfold := foldl_contribution_eq (app_signals sp st now) 0
  rw [zero_add] at hfold
  have hsum : 0 ≤ ((app_signals sp st now).map Signal.score_contribution).sum := by
    apply List.sum_nonneg
    intro x hx
    rcases List.mem_map.mp hx with ⟨s, hs, rfl⟩
    exact (hwf s hs).2
  refine ⟨?_, ?_, ?_, ?_⟩
  · rw [hscore, hfold]
    exact le_min hsum (by norm_num)
  · rw [hscore]
    exact min_le_right _ _
  · intro s hs
    exact (hwf s (by rwa [hsignals] at hs)).2
  · rw [hscore, hfold, hsignals]

/-- A record whose only signal is `disabled_sp`, used to witness C2. -/
def c2_record : SP := { accountEnabled := some false, owners := some [()] }

/-- Witness for C2 at a concrete record and signal. -/
theorem claim_C2_witness :
    0 ≤ (analyze_app c2_record 90 0).risk_score ∧
    0 ≤ disabled_sp_sig.score_contribution :=
  ⟨(claim_C2_score_bounds c2_record 90 0).1,
   (claim_C2_score_bounds c2_record 90 0).2.2.1 disabled_sp_sig (by decide)⟩

/-- C8: a non-mapping top-level value escalates a failure to the caller
(Python raises `AttributeError` on `raw_data.get`), while a mapping with
zero apps is valid and yields the empty result list; the two outcomes are
distinct. -/
theorem claim_C8_structural_failure :
    ∀ (stale_days now : Int),
      (∃ e, analyze_all_dyn RawData.nonMapping stale_days now =
        Except.error e) ∧
      (∀ snap : Snapshot, snap.apps = some [] ∨ snap.apps = none →
        analyze_all_dyn (RawData.mapping snap) stale_days now =
          Except.ok []) ∧
      (∀ res : List AppResult,
        Except.ok res ≠ analyze_all_dyn RawData.nonMapping stale_days now) := by
  intro st now
  refine ⟨⟨_, rfl⟩, ?_, ?_⟩
  · intro snap h
    rcases h with h | h <;>
      simp [analyze_all_dyn, analyze_all, h, insertionSort]
  · intro res h
    simp [analyze_all_dyn] at h

/-- Witness for C8: the empty-apps mapping yields `ok []`. -/
theorem claim_C8_witness :
    analyze_all_dyn (RawData.mapping { apps := some [] }) 90 0 =
      Except.ok [] :=
  (claim_C8_structural_failure 90 0).2.1 { apps := some [] } (Or.inl rfl)

/-- C6 example: a disabled app named "Zebra" (only `disabled_sp` fires,
score 10). -/
def c6_zebra : SP :=
  { displayName := some "Zebra", accountEnabled := some false,
    owners := some [()] }

/-- C6 example: the same shape named "apple" (score 10). -/
def c6_apple : SP :=
  { displayName := some "apple", accountEnabled := some false,
    owners := some [()] }

/-- C6 example: "Mid" fires `never_signed_in` (35) and `disabled_owner`
(15) for a score of 50. -/
def c6_mid : SP :=
  { displayName := some "Mid", owners := some [()],
    disabledOwnerIds := some ["x"],
    signInActivity := some { otherKeys := true },
    appPermissions := some [()] }

def c6_snapshot : Snapshot := { apps := some [c6_zebra, c6_apple, c6_mid] }

/-- C6: `analyze_all` output is sorted by descending risk score with ties
broken by ascending case-insensitive display name, it is a permutation of
the per-app results, and on apps scored [10,"Zebra"], [10,"apple"],
[50,"Mid"] the output order is Mid(50), apple(10), Zebra(10). -/
theorem claim_C6_sort_order :
    (∀ (raw : Snapshot) (stale_days now : Int),
      List.Pairwise
        (fun a b => b.risk_score < a.risk_score ∨
          (a.risk_score = b.risk_score ∧
            charListLe (pyLower a.display_name).data
              (pyLower b.display_name).data = true))
        (analyze_all raw stale_days now) ∧
      List.Perm (analyze_all raw stale_days now)
        ((raw.apps.getD []).map fun sp => analyze_app sp stale_days now)) ∧
    (analyze_all c6_snapshot 90 0).map (fun r => (r.display_name, r.risk_score)) =
      [("Mid", (50 : Int)), ("apple", (10 : Int)), ("Zebra", (10 : Int))] := by
  constructor
  · intro raw st now
    constructor
    · have h := sorted_insertionSort resultLe_trans resultLe_total
        ((raw.apps.getD []).map fun sp => analyze_app sp st now)
      refine List.Pairwise.imp ?_ h
      intro a b hab
      unfold resultLe at hab
      simp only [Bool.or_eq_true, Bool.and_eq_true, decide_eq_true_eq,
        pyStrLe] at hab
      tauto
    · exact perm_insertionSort resultLe _
  · decide

theorem bool_eq_false_iff (b : Bool) : b = false ↔ ¬b = true := by
  cases b <;> simp

/-- A record with one password credential whose end date is `d` days from
the evaluation instant 0. -/
def c3_secret (d : Int) : SP :=
  { passwordCredentials := some [{ endDateTime := some { text := "t", parsed := some d } }] }

/-- A record with one key credential whose end date is `d` days from the
evaluation instant 0. -/
def c3_cert (d : Int) : SP :=
  { keyCredentials := some [{ endDateTime := some { text := "t", parsed := some d } }] }

/-- C3: the three secret-expiry signals (and symmetrically the three
cert-expiry signals) are mutually exclusive in every evaluation; expired
means days-until < 0, "within 30 days" means 0 ≤ days-until ≤ 30, the
warning tier is 30 < days-until ≤ 90; a single credential at days-until
15 / 60 / 120 / −5 fires only `near_expiry_secret` / only
`expiry_warning_secret` / none of the three / only `expired_secret`. -/
theorem claim_C3_expiry_tiers :
    (∀ (sp : SP) (stale_days now : Int),
      (¬("expired_secret" ∈ signal_keys sp stale_days now ∧
          "near_expiry_secret" ∈ signal_keys sp stale_days now) ∧
        ¬("expired_secret" ∈ signal_keys sp stale_days now ∧
          "expiry_warning_secret" ∈ signal_keys sp stale_days now) ∧
        ¬("near_expiry_secret" ∈ signal_keys sp stale_days now ∧
          "expiry_warning_secret" ∈ signal_keys sp stale_days now)) ∧
      (¬("expired_cert" ∈ signal_keys sp stale_days now ∧
          "near_expiry_cert" ∈ signal_keys sp stale_days now) ∧
        ¬("expired_cert" ∈ signal_keys sp stale_days now ∧
          "expiry_warning_cert" ∈ signal_keys sp stale_days now) ∧
        ¬("near_expiry_cert" ∈ signal_keys sp stale_days now ∧
          "expiry_warning_cert" ∈ signal_keys sp stale_days now)) ∧
      ("expired_secret" ∈ signal_keys sp stale_days now ↔
        ∃ c ∈ password_credsOf sp, ∃ d, credDaysLeft now c = some d ∧ d < 0) ∧
      ("near_expiry_secret" ∈ signal_keys sp stale_days now ↔
        (∃ c ∈ password_credsOf sp, ∃ d, credDaysLeft now c = some d ∧
          0 ≤ d ∧ d ≤ 30) ∧
        ¬∃ c ∈ password_credsOf sp, ∃ d, credDaysLeft now c = some d ∧ d < 0) ∧
      ("expiry_warning_secret" ∈ signal_keys sp stale_days now ↔
        (∃ c ∈ password_credsOf sp, ∃ d, credDaysLeft now c = some d ∧
          30 < d ∧ d ≤ 90) ∧
        (¬∃ c ∈ password_credsOf sp, ∃ d, credDaysLeft now c = some d ∧ d < 0) ∧
        ¬∃ c ∈ password_credsOf sp, ∃ d, credDaysLeft now c = some d ∧
          0 ≤ d ∧ d ≤ 30)) ∧
    ("near_expiry_secret" ∈ signal_keys (c3_secret 15) 90 0 ∧
      "expired_secret" ∉ signal_keys (c3_secret 15) 90 0 ∧
      "expiry_warning_secret" ∉ signal_keys (c3_secret 15) 90 0) ∧
    ("expiry_warning_secret" ∈ signal_keys (c3_secret 60) 90 0 ∧
      "expired_secret" ∉ signal_keys (c3_secret 60) 90 0 ∧
      "near_expiry_secret" ∉ signal_keys (c3_secret 60) 90 0) ∧
    ("expired_secret" ∉ signal_keys (c3_secret 120) 90 0 ∧
      "near_expiry_secret" ∉ signal_keys (c3_secret 120) 90 0 ∧
      "expiry_warning_secret" ∉ signal_keys (c3_secret 120) 90 0) ∧
    ("expired_secret" ∈ signal_keys (c3_secret (-5)) 90 0 ∧
      "near_expiry_secret" ∉ signal_keys (c3_secret (-5)) 90 0 ∧
      "expiry_warning_secret" ∉ signal_keys (c3_secret (-5)) 90 0) ∧
    ("near_expiry_cert" ∈ signal_keys (c3_cert 15) 90 0 ∧
      "expired_cert" ∉ signal_keys (c3_cert 15) 90 0 ∧
      "expiry_warning_cert" ∉ signal_keys (c3_cert 15) 90 0) ∧
    ("expiry_warning_cert" ∈ signal_keys (c3_cert 60) 90 0 ∧
      "expired_cert" ∉ signal_keys (c3_cert 60) 90 0 ∧
      "near_expiry_cert" ∉ signal_keys (c3_cert 60) 90 0) ∧
    ("expired_cert" ∉ signal_keys (c3_cert 120) 90 0 ∧
      "near_expiry_cert" ∉ signal_keys (c3_cert 120) 90 0 ∧
      "expiry_warning_cert" ∉ signal_keys (c3_cert 120) 90 0) ∧
    ("expired_cert" ∈ signal_keys (c3_cert (-5)) 90 0 ∧
      "near_expiry_cert" ∉ signal_keys (c3_cert (-5)) 90 0 ∧
      "expiry_warning_cert" ∉ signal_keys (c3_cert (-5)) 90 0) := by
  constructor
  · intro sp st now
    refine ⟨⟨?_, ?_, ?_⟩, ⟨?_, ?_, ?_⟩, ?_, ?_, ?_⟩
    all_goals
      solve
      | simp only [mem_expired_secret_iff, mem_near_secret_iff,
          mem_warn_secret_iff, mem_expired_cert_iff, mem_near_cert_iff,
          mem_warn_cert_iff, bool_eq_false_iff] <;> tauto
      | simp only [mem_expired_secret_iff, mem_near_secret_iff,
          mem_warn_secret_iff, bool_eq_false_iff, has_expired_secret_iff,
          has_near_secret_iff, has_warn_secret_iff] <;> tauto
  · refine ⟨?_, ?_, ?_, ?_, ?_, ?_, ?_, ?_⟩ <;>
      exact ⟨by decide, by decide, by decide⟩

/-- Witness for C3: the mutual-exclusion fact applied at the concrete
record with an expired credential. -/
theorem claim_C3_witness :
    ¬("expired_secret" ∈ signal_keys (c3_secret (-7)) 90 0 ∧
      "near_expiry_secret" ∈ signal_keys (c3_secret (-7)) 90 0) :=
  (claim_C3_expiry_tiers.1 (c3_secret (-7)) 90 0).1.1

/-- C4: for a first-party app (owning organisation in the Microsoft
tenant set) with zero owners and no sign-in activity block, none of
`no_owners`, `no_assignments`, `stale`, `never_signed_in`,
`disabled_owner`, `multi_tenant_app` fire, but the
`microsoft_first_party` info signal (contribution 0) does. -/
theorem claim_C4_first_party_suppression :
    ∀ (sp : SP) (stale_days now : Int),
      is_microsoft_first_partyOf sp = true →
      ownersOf sp = [] →
      sp.signInActivity = none →
      ("no_owners" ∉ signal_keys sp stale_days now ∧
        "no_assignments" ∉ signal_keys sp stale_days now ∧
        "stale" ∉ signal_keys sp stale_days now ∧
        "never_signed_in" ∉ signal_keys sp stale_days now ∧
        "disabled_owner" ∉ signal_keys sp stale_days now ∧
        "multi_tenant_app" ∉ signal_keys sp stale_days now) ∧
      microsoft_first_party_sig ∈ app_signals sp stale_days now ∧
      microsoft_first_party_sig.score_contribution = 0 := by
  intro sp st now hms _ _
  refine ⟨⟨?_, ?_, ?_, ?_, ?_, ?_⟩, ?_, rfl⟩
  · simp [mem_signal_keys_iff, hms]
  · simp [mem_signal_keys_iff, hms]
  · simp [mem_signal_keys_iff, hms]
  · simp [mem_signal_keys_iff, hms]
  · simp [mem_signal_keys_iff, hms]
  · simp [mem_signal_keys_iff, hms]
  · simp [app_signals, microsoft_signals, hms]

/-- The C4 witness record: a first-party, ownerless, sign-in-free app. -/
def c4_record : SP :=
  { appOwnerOrganizationId := some "f8cdef31-a31e-4b4a-93e4-5f571e91255a",
    owners := some [] }

/-- Witness for C4 at the concrete first-party record. -/
theorem claim_C4_witness :
    "no_owners" ∉ signal_keys c4_record 90 0 ∧
    microsoft_first_party_sig ∈ app_signals c4_record 90 0 :=
  ⟨(claim_C4_first_party_suppression c4_record 90 0 (by decide) (by decide)
      rfl).1.1,
   (claim_C4_first_party_suppression c4_record 90 0 (by decide) (by decide)
      rfl).2.1⟩

/-- Replace every absent collection-valued field by its explicit empty
default, as `analyze_app` itself does with `dict.get` defaults. -/
def normalize_lists (sp : SP) : SP :=
  { sp with
    owners := some (sp.owners.getD [])
    appPermissions := some (sp.appPermissions.getD [])
    delegatedGrants := some (sp.delegatedGrants.getD [])
    assignments := some (sp.assignments.getD [])
    disabledOwnerIds := some (sp.disabledOwnerIds.getD [])
    signInActivity := some (sp.signInActivity.getD {})
    passwordCredentials := some (sp.passwordCredentials.getD [])
    keyCredentials := some (sp.keyCredentials.getD [])
    replyUrls := some (sp.replyUrls.getD [])
    tags := some (sp.tags.getD []) }

/-- C9: `analyze_app` is total over partially populated records — absent
collections are interchangeable with empty ones; on a non-first-party
record `never_signed_in` fires exactly when an activity block exists but
no timestamp resolves; and when every password (resp. key) credential has
an absent or unparseable end timestamp, the dependent expiry rules are
suppressed. -/
theorem claim_C9_total_on_partial_records :
    ∀ (sp : SP) (stale_days now : Int),
      analyze_app sp stale_days now =
        analyze_app (normalize_lists sp) stale_days now ∧
      (is_microsoft_first_partyOf sp = false →
        ("never_signed_in" ∈ signal_keys sp stale_days now ↔
          sign_inTruthy sp = true ∧ last_sign_in_dtOf sp = none)) ∧
      ((∀ c ∈ password_credsOf sp, _parse_dt c.endDateTime = none) →
        "expired_secret" ∉ signal_keys sp stale_days now ∧
        "near_expiry_secret" ∉ signal_keys sp stale_days now ∧
        "expiry_warning_secret" ∉ signal_keys sp stale_days now) ∧
      ((∀ c ∈ key_credsOf sp, _parse_dt c.endDateTime = none) →
        "expired_cert" ∉ signal_keys sp stale_days now ∧
        "near_expiry_cert" ∉ signal_keys sp stale_days now ∧
        "expiry_warning_cert" ∉ signal_keys sp stale_days now) := by
  intro sp st now
  refine ⟨rfl, ?_, ?_, ?_⟩
  · intro hms
    rw [mem_never_signed_in_iff]
    simp [hms]
    tauto
  · intro h
    have hexp : has_expired_secretOf sp now = false := by
      simp only [has_expired_secretOf, List.any_eq_false]
      intro c hc
      simp [credDaysLeft, h c hc, _days_until]
    have hnear : has_near_expiry_secretOf sp now = false := by
      simp only [has_near_expiry_secretOf, List.any_eq_false]
      intro c hc
      simp [credDaysLeft, h c hc, _days_until]
    have hwarn : has_expiry_warning_secretOf sp now = false := by
      simp only [has_expiry_warning_secretOf, List.any_eq_false]
      intro c hc
      simp [credDaysLeft, h c hc, _days_until]
    refine ⟨?_, ?_, ?_⟩ <;>
      simp [mem_expired_secret_iff, mem_near_secret_iff, mem_warn_secret_iff,
        hexp, hnear, hwarn]
  · intro h
    have hexp : has_expired_certOf sp now = false := by
      simp only [has_expired_certOf, List.any_eq_false]
      intro c hc
      simp [credDaysLeft, h c hc, _days_until]
    have hnear : has_near_expiry_certOf sp now = false := by
      simp only [has_near_expiry_certOf, List.any_eq_false]
      intro c hc
      simp [credDaysLeft, h c hc, _days_until]
    have hwarn : has_expiry_warning_certOf sp now = false := by
      simp only [has_expiry_warning_certOf, List.any_eq_false]
      intro c hc
      simp [credDaysLeft, h c hc, _days_until]
    refine ⟨?_, ?_, ?_⟩ <;>
      simp [mem_expired_cert_iff, mem_near_cert_iff, mem_warn_cert_iff,
        hexp, hnear, hwarn]

/-- The C9 witness record: a truthy activity block with no resolvable
timestamp and one unparseable password-credential end date. -/
def c9_record : SP :=
  { displayName := some "Partially populated",
    signInActivity := some { otherKeys := true },
    passwordCredentials := some [{ endDateTime := some { text := "bad", parsed := none } }] }

/-- Witness for C9 at the concrete partially populated record. -/
theorem claim_C9_witness :
    analyze_app c9_record 90 0 = analyze_app (normalize_lists c9_record) 90 0 ∧
    "expired_secret" ∉ signal_keys c9_record 90 0 ∧
    ("never_signed_in" ∈ signal_keys c9_record 90 0 ↔
      sign_inTruthy c9_record = true ∧ last_sign_in_dtOf c9_record = none) :=
  ⟨(claim_C9_total_on_partial_records c9_record 90 0).1,
   ((claim_C9_total_on_partial_records c9_record 90 0).2.2.1 (by decide)).1,
   (claim_C9_total_on_partial_records c9_record 90 0).2.1 (by decide)⟩

/-- The recommendation table has no entry for `tool_artifact`, so the
lookup falls through to the generic fallback. -/
theorem rec_tool_artifact (ae : Bool) :
    _recommendation_for_signal "tool_artifact" ae =
      "Review and remediate flagged issues." := rfl

/-- C10: when the only fired signal of a (non-first-party) app is the
`tool_artifact` info marker, the primary recommendation is the generic
fallback string, because the recommendation table has no `tool_artifact`
entry. -/
theorem claim_C10_tool_artifact_fallback :
    (∀ ae : Bool, _recommendation_for_signal "tool_artifact" ae =
      "Review and remediate flagged issues.") ∧
    ∀ (sp : SP) (stale_days now : Int),
      signal_keys sp stale_days now = ["tool_artifact"] →
      (analyze_app sp stale_days now).primary_recommendation =
        "Review and remediate flagged issues." := by
  constructor
  · intro ae; rfl
  · intro sp st now h
    obtain ⟨s, hl, hk⟩ : ∃ s, app_signals sp st now = [s] ∧
        s.key = "tool_artifact" := by
      unfold signal_keys at h
      cases hl : app_signals sp st now with
      | nil => rw [hl] at h; simp at h
      | cons a t =>
        rw [hl] at h
        cases t with
        | nil =>
          simp only [List.map_cons, List.map_nil, List.cons.injEq, and_true] at h
          exact ⟨a, rfl, h⟩
        | cons b t2 => simp at h
    have hsev := (app_signals_wf sp st now s (by rw [hl]; simp)).1
    have hpr : (analyze_app sp st now).primary_recommendation =
        _primary_recommendation (app_signals sp st now) (account_enabledOf sp) := by
      simp only [analyze_app]
    rw [hpr, hl]
    simp only [severity_order, List.mem_cons, List.not_mem_nil, or_false] at hsev
    rcases hsev with h5 | h5 | h5 | h5 | h5 <;>
      simp [_primary_recommendation, severity_order, List.findSome?, List.find?,
        h5, hk, rec_tool_artifact]

/-- The C10 witness record: an enabled, owned, assigned app whose display
name carries the scan-tool prefix, so only `tool_artifact` fires. -/
def c10_record : SP :=
  { displayName := some "Enterprise-Zapp-Scan-20250101",
    owners := some [()], appPermissions := some [()] }

/-- Witness for C10 at the concrete scan-tool record. -/
theorem claim_C10_witness :
    (analyze_app c10_record 90 0).primary_recommendation =
      "Review and remediate flagged issues." :=
  claim_C10_tool_artifact_fallback.2 c10_record 90 0 (by decide)

/-- A filtered-and-mapped list is non-empty exactly when some element
passes the filter. -/
theorem filter_map_nonempty_decide {α β : Type} (l : List α) (q : α → Bool)
    (f : α → β) :
    (!((l.filter q).map f).isEmpty) = decide (∃ x ∈ l, q x = true) := by
  induction l with
  | nil => rfl
  | cons a t ih =>
    by_cases h : q a = true
    · simp [List.filter_cons, h]
    · simp [List.filter_cons, h, ih]

/-- The covering list built by `analyze_ca_coverage` is non-empty exactly
when some parsed policy is enabled, includes the app and does not exclude
it. -/
theorem covered_decide (summaries : List PolicySummary) (aid : String) :
    (!(((summaries.filter fun p => p.is_enforced).filter
          fun policy => policyCovers policy aid).map
          fun policy => policy.display_name).isEmpty) =
      decide (∃ p ∈ summaries, p.state = "enabled" ∧
        (p.includes_all_apps = true ∨ aid ∈ p.included_app_ids) ∧
        aid ∉ p.excluded_app_ids) := by
  rw [filter_map_nonempty_decide, decide_eq_decide]
  simp only [List.mem_filter, PolicySummary.is_enforced, policyCovers,
    Bool.and_eq_true, Bool.or_eq_true, Bool.not_eq_true', bool_eq_false_iff,
    beq_iff_eq, List.contains, List.elem_iff]
  constructor
  · rintro ⟨p, ⟨hp, hs⟩, hinc, hexc⟩
    exact ⟨p, hp, hs, hinc, hexc⟩
  · rintro ⟨p, hp, hs, hinc, hexc⟩
    exact ⟨p, ⟨hp, hs⟩, hinc, hexc⟩

/-- C5 example application condition: include all, exclude `app-x`. -/
def c5_all_apps_cond : RawAppsCondition :=
  { includeApplications := some ["All"], excludeApplications := some ["app-x"] }

/-- C5 example application condition: include all, exclude nothing. -/
def c5_incl_all_cond : RawAppsCondition :=
  { includeApplications := some ["All"] }

/-- C5 example: an enabled policy including all apps and excluding
`app-x`. -/
def c5_all_policy : RawPolicy :=
  { id := some "p1", displayName := some "Require MFA",
    state := some "enabled",
    conditions := some { applications := some c5_all_apps_cond } }

/-- C5 example: a disabled include-all policy. -/
def c5_disabled_policy : RawPolicy :=
  { id := some "p2", displayName := some "Off", state := some "disabled",
    conditions := some { applications := some c5_incl_all_cond } }

/-- C5 example: a report-only include-all policy. -/
def c5_report_policy : RawPolicy :=
  { id := some "p3", displayName := some "Report",
    state := some "enabledForReportingButNotEnforced",
    conditions := some { applications := some c5_incl_all_cond } }

/-- C5 example app whose id lower-cases to the excluded `app-x`. -/
def c5_appx : SP := { appId := some "App-X", displayName := some "X" }

/-- C5 example app that is not excluded. -/
def c5_appy : SP := { appId := some "app-y", displayName := some "Y" }

/-- C5: only policies with state exactly "enabled" contribute coverage;
an enforced policy covers an app iff (its includes-all flag is set or the
lower-cased app id is in its included-id set) and the app id is not in
its excluded-id set — exclusion beats inclusion, including includes-all;
`is_covered` holds iff at least one enforced policy covers the app; and
every policy, whatever its state, appears in the summary list. -/
theorem claim_C5_ca_coverage :
    (∀ (ca_policies : List RawPolicy) (apps : List SP),
      (analyze_ca_coverage ca_policies apps).2 = _parse_policies ca_policies ∧
      (analyze_ca_coverage ca_policies apps).2.length = ca_policies.length ∧
      (analyze_ca_coverage ca_policies apps).1.map (fun c => c.is_covered) =
        apps.map fun app =>
          decide (∃ p ∈ _parse_policies ca_policies, p.state = "enabled" ∧
            (p.includes_all_apps = true ∨
              pyLower (app.appId.getD "") ∈ p.included_app_ids) ∧
            pyLower (app.appId.getD "") ∉ p.excluded_app_ids)) ∧
    ((analyze_ca_coverage [c5_all_policy] [c5_appx, c5_appy]).1.map
        (fun c => c.is_covered) = [false, true]) ∧
    ((analyze_ca_coverage [c5_disabled_policy, c5_report_policy]
        [c5_appy]).1.map (fun c => c.is_covered) = [false]) ∧
    ((analyze_ca_coverage [c5_disabled_policy, c5_report_policy]
        [c5_appy]).2.map (fun p => p.is_enforced) = [false, false]) := by
  refine ⟨?_, by decide, by decide, by decide⟩
  intro pol apps
  refine ⟨rfl, by simp [analyze_ca_coverage, _parse_policies], ?_⟩
  simp only [analyze_ca_coverage]
  rw [List.map_map]
  apply List.map_congr_left
  intro app _
  exact covered_decide (_parse_policies pol) (pyLower (app.appId.getD ""))

end EnterpriseZapp
